import Mathlib

/-!
Shallow embedding of the post-comments service (FastAPI + SQLModel + SQLite).

Entities are `PostRow` / `CommentRow` (the `posts` / `comments` tables from
`app/models/post.py` and `app/models/comment.py`); the store is `DB`, a pair of
row lists plus the autoincrement counters.  Timestamps are modelled as `Nat`
(UTC instants); request handlers take the current clock reading `now` as an
explicit argument where the source calls `datetime.now(timezone.utc)`.

Each HTTP handler from `app/api/posts.py` and `app/api/comments.py` becomes a
function on `DB` returning `Except ApiError`; the pydantic field validators
from `app/schemas/*.py` become the `validate*` functions, and `*Endpoint`
functions compose validation with the handler the way FastAPI does (validation
errors surface as 422 before the handler body runs).

Cascade behaviour is taken from the model declarations, not from the comments
in the code: `Comment.post_id` is declared `int = Field(foreign_key="posts.id")`
with no `ondelete` and the `Post.comments` / `Comment.replies` relationships
carry no `cascade` option, so the ORM's default applies on parent delete:
children of the deleted row have their foreign key set to NULL.  For
`Comment.parent_comment_id` (nullable) this succeeds and orphans become
top-level comments; for `Comment.post_id` (non-nullable column) the emitted
UPDATE violates the NOT NULL constraint, the flush raises, and the handler's
`except` branch rolls back and returns 500.
-/

/-- Python's `str.strip()` on the default (whitespace) argument: drop
leading and trailing whitespace characters. -/
def pyStrip (v : String) : String :=
  ⟨((v.data.dropWhile Char.isWhitespace).reverse.dropWhile Char.isWhitespace).reverse⟩

/-- The pydantic validator body used throughout `app/schemas`:
`if not v or not v.strip(): raise ValueError(...)` then `return v.strip()`.
`not v` on a Python `str` is `v == ""`. -/
def nonEmptyTrimmed (v : String) : Option String :=
  if v = "" || pyStrip v = "" then none else some (pyStrip v)

/-- Validation of a `PostCreate` payload (`app/schemas/post.py`, `PostBase`):
`title` and `content` each have a non-empty-after-strip validator; `author`
is a required `str` field but has NO validator, so any string (including the
empty string) passes through unchanged. -/
def validatePostCreate (title content author : String) :
    Option (String × String × String) :=
  match nonEmptyTrimmed title, nonEmptyTrimmed content with
  | some t, some c => some (t, c, author)
  | _, _ => none

/-- Validation of a `CommentCreate` payload (`app/schemas/comment.py`,
`CommentBase`): `content` and `author` both carry the non-empty-after-strip
validator; `parent_comment_id` is passed through. -/
def validateCommentCreate (content author : String) (parent : Option Nat) :
    Option (String × String × Option Nat) :=
  match nonEmptyTrimmed content, nonEmptyTrimmed author with
  | some c, some a => some (c, a, parent)
  | _, _ => none

/-- Validation of a `CommentUpdate` payload (`app/schemas/comment.py`): the
payload carries `content` only, with the non-empty-after-strip validator. -/
def validateCommentUpdate (content : String) : Option String :=
  nonEmptyTrimmed content

/-- The error taxonomy of the HTTP layer: each constructor is one of the
`HTTPException` shapes raised in `app/api`, plus the 422 produced by FastAPI
when a pydantic validator rejects the payload. -/
inductive ApiError where
  | notFound (detail : String)
  | invalidPagination (detail : String)
  | invalidParent
  | validationError
  | persistenceFailure (detail : String)
deriving Repr, DecidableEq

/-- HTTP status code carried by each error. -/
def ApiError.status : ApiError → Nat
  | .notFound _ => 404
  | .invalidPagination _ => 400
  | .invalidParent => 400
  | .validationError => 422
  | .persistenceFailure _ => 500

/-- A row of the `posts` table (`app/models/post.py`).  `author` is nullable
at the storage layer (`Optional[str]`). -/
structure PostRow where
  id : Nat
  title : String
  content : String
  author : Option String
  created_at : Nat
  updated_at : Nat
deriving Repr, DecidableEq

/-- A row of the `comments` table (`app/models/comment.py`).  `post_id` is a
non-nullable foreign key to `posts.id`; `parent_comment_id` is a nullable
self-referential foreign key. -/
structure CommentRow where
  id : Nat
  content : String
  author : Option String
  post_id : Nat
  parent_comment_id : Option Nat
  created_at : Nat
  updated_at : Nat
deriving Repr, DecidableEq

/-- The relational store: both tables plus the autoincrement id counters. -/
structure DB where
  posts : List PostRow
  comments : List CommentRow
  nextPostId : Nat
  nextCommentId : Nat
deriving Repr, DecidableEq

/-- The freshly created database. -/
def DB.empty : DB := ⟨[], [], 1, 1⟩

/-- `db.get(Post, pid)`: primary-key lookup. -/
def DB.findPost (s : DB) (pid : Nat) : Option PostRow :=
  s.posts.find? (fun p => p.id == pid)

/-- `db.get(Comment, cid)`: primary-key lookup. -/
def DB.findComment (s : DB) (cid : Nat) : Option CommentRow :=
  s.comments.find? (fun c => c.id == cid)

/-- The `Post.comments` relationship (back-populated by the
`comments.post_id` foreign key): all comment rows whose `post_id` is `pid`. -/
def DB.commentsOf (s : DB) (pid : Nat) : List CommentRow :=
  s.comments.filter (fun c => c.post_id == pid)

/-- Response shape `PostResponse` (`app/schemas/post.py`). -/
structure PostResponse where
  id : Nat
  title : String
  content : String
  author : Option String
  created_at : Nat
  updated_at : Nat
  comments_count : Nat
deriving Repr, DecidableEq

/-- Response shape `PostListResponse`. -/
structure PostListResponse where
  posts : List PostResponse
  total : Nat
  page : Nat
  limit : Nat
  total_pages : Nat
deriving Repr, DecidableEq

/-- Response shape `CommentResponse` (`app/schemas/comment.py`). -/
structure CommentResponse where
  id : Nat
  content : String
  author : Option String
  post_id : Nat
  parent_comment_id : Option Nat
  created_at : Nat
  updated_at : Nat
deriving Repr, DecidableEq

/-- Response shape `CommentListResponse`. -/
structure CommentListResponse where
  comments : List CommentResponse
  total : Nat
  page : Nat
  limit : Nat
  total_pages : Nat
deriving Repr, DecidableEq

/-- Building a `PostResponse` from a row, with `comments_count` computed as
`len(post.comments) if post.comments else 0` — the length of the relationship
collection. -/
def postResponseOf (s : DB) (p : PostRow) : PostResponse :=
  ⟨p.id, p.title, p.content, p.author, p.created_at, p.updated_at,
   (s.commentsOf p.id).length⟩

/-- Building a `CommentResponse` from a row. -/
def commentResponseOf (c : CommentRow) : CommentResponse :=
  ⟨c.id, c.content, c.author, c.post_id, c.parent_comment_id,
   c.created_at, c.updated_at⟩

/-- `create_post` handler body (`app/api/posts.py`), reached after pydantic
validation: inserts a row with both timestamps set to the current time and the
autoincrement id, and returns it with the computed comments count. -/
def createPost (s : DB) (title content author : String) (now : Nat) :
    DB × PostResponse :=
  let row : PostRow := ⟨s.nextPostId, title, content, some author, now, now⟩
  let s2 : DB := { s with posts := s.posts ++ [row],
                          nextPostId := s.nextPostId + 1 }
  (s2, postResponseOf s2 row)

/-- `POST /posts/`: pydantic validation of the payload, then the handler. -/
def createPostEndpoint (s : DB) (title content author : String) (now : Nat) :
    Except ApiError (DB × PostResponse) :=
  match validatePostCreate title content author with
  | none => .error .validationError
  | some (t, c, a) => .ok (createPost s t c a now)

/-- `ORDER BY posts.created_at DESC` of `get_posts`. -/
def postsDescByCreated (s : DB) : List PostRow :=
  List.insertionSort (fun a b => b.created_at ≤ a.created_at) s.posts

/-- `GET /posts/` (`get_posts`): pagination checks, then the paginated,
descending-by-`created_at` page of posts with `total` and
`total_pages = (total + limit - 1) // limit`. -/
def getPosts (s : DB) (page limit : Int) : Except ApiError PostListResponse :=
  if page < 1 then .error (.invalidPagination "Page must be >= 1")
  else if limit < 1 || limit > 100 then
    .error (.invalidPagination "Limit must be between 1 and 100")
  else
    let p := page.toNat
    let l := limit.toNat
    let offset := (p - 1) * l
    let total := s.posts.length
    let items := ((postsDescByCreated s).drop offset).take l
    .ok ⟨items.map (postResponseOf s), total, p, l, (total + l - 1) / l⟩

/-- `GET /posts/{post_id}` (`get_post`). -/
def getPost (s : DB) (pid : Nat) : Except ApiError PostResponse :=
  match s.findPost pid with
  | none =>
    .error (.notFound ("Post with ID " ++ toString pid ++ " not found"))
  | some p => .ok (postResponseOf s p)

/-- `DELETE /posts/{post_id}` (`delete_post`).  `db.delete(post)` triggers the
ORM's default handling of the un-cascaded `Post.comments` relationship: every
comment row with this `post_id` would have that column set to NULL, but the
column is non-nullable, so when any such comment exists the flush raises an
integrity error, the `except` branch rolls back (state unchanged) and a 500 is
returned.  Only a post with no comments is actually deleted. -/
def deletePost (s : DB) (pid : Nat) : Except ApiError (DB × String) :=
  match s.findPost pid with
  | none =>
    .error (.notFound ("Post with ID " ++ toString pid ++ " not found"))
  | some p =>
    if s.comments.any (fun c => c.post_id == p.id) then
      .error (.persistenceFailure
        "Failed to delete post: NOT NULL constraint failed: comments.post_id")
    else
      .ok ({ s with posts := s.posts.filter (fun q => q.id != p.id) },
           "Post with ID " ++ toString pid ++ " deleted successfully")

/-- `ORDER BY comments.created_at ASC` over the comments of one post
(`get_comments`). -/
def commentsAscByCreated (s : DB) (pid : Nat) : List CommentRow :=
  List.insertionSort (fun a b => a.created_at ≤ b.created_at) (s.commentsOf pid)

/-- `GET /posts/{post_id}/comments` (`get_comments`): pagination checks first,
then the post-existence check, then the paginated ascending page of that
post's comments. -/
def getComments (s : DB) (pid : Nat) (page limit : Int) :
    Except ApiError CommentListResponse :=
  if page < 1 then .error (.invalidPagination "Page must be >= 1")
  else if limit < 1 || limit > 100 then
    .error (.invalidPagination "Limit must be between 1 and 100")
  else
    match s.findPost pid with
    | none =>
      .error (.notFound ("Post with ID " ++ toString pid ++ " not found"))
    | some _ =>
      let p := page.toNat
      let l := limit.toNat
      let offset := (p - 1) * l
      let total := (s.commentsOf pid).length
      let items := ((commentsAscByCreated s pid).drop offset).take l
      .ok ⟨items.map commentResponseOf, total, p, l, (total + l - 1) / l⟩

/-- The insertion performed by `create_comment` once all checks passed: a new
row with the autoincrement id, the path's `post_id`, the payload's
`parent_comment_id`, and both timestamps set to the current time. -/
def insertComment (s : DB) (pid : Nat) (content author : String)
    (parent : Option Nat) (now : Nat) : DB × CommentResponse :=
  let row : CommentRow := ⟨s.nextCommentId, content, some author, pid, parent, now, now⟩
  ({ s with comments := s.comments ++ [row],
            nextCommentId := s.nextCommentId + 1 },
   commentResponseOf row)

/-- `create_comment` handler body (`app/api/posts.py`), reached after pydantic
validation: 404 when the post is missing; when `parent_comment_id` is given,
404 when that comment is missing and 400 when it belongs to a different post;
otherwise the insertion. -/
def createComment (s : DB) (pid : Nat) (content author : String)
    (parent : Option Nat) (now : Nat) : Except ApiError (DB × CommentResponse) :=
  match s.findPost pid with
  | none =>
    .error (.notFound ("Post with ID " ++ toString pid ++ " not found"))
  | some _ =>
    match parent with
    | some q =>
      match s.findComment q with
      | none =>
        .error (.notFound ("Parent comment with ID " ++ toString q ++ " not found"))
      | some pc =>
        if pc.post_id ≠ pid then .error .invalidParent
        else .ok (insertComment s pid content author (some q) now)
    | none => .ok (insertComment s pid content author none now)

/-- `POST /posts/{post_id}/comments`: pydantic validation, then the handler. -/
def createCommentEndpoint (s : DB) (pid : Nat) (content author : String)
    (parent : Option Nat) (now : Nat) : Except ApiError (DB × CommentResponse) :=
  match validateCommentCreate content author parent with
  | none => .error .validationError
  | some (c, a, pr) => createComment s pid c a pr now

/-- `GET /comments/{comment_id}` (`get_comment`). -/
def getComment (s : DB) (cid : Nat) : Except ApiError CommentResponse :=
  match s.findComment cid with
  | none =>
    .error (.notFound ("Comment with ID " ++ toString cid ++ " not found"))
  | some c => .ok (commentResponseOf c)

/-- The row mutation performed by `update_comment` on the fetched row `c`:
`comment.content = comment_data.content; comment.updated_at = now`, applied in
the store to the row with that primary key. -/
def applyUpdate (c : CommentRow) (content : String) (now : Nat)
    (d : CommentRow) : CommentRow :=
  if d.id = c.id then { c with content := content, updated_at := now } else d

/-- `update_comment` handler body (`app/api/comments.py`), reached after
pydantic validation: 404 when missing; otherwise the row's `content` is set to
the (already stripped) payload content and `updated_at` to the current time,
every other column untouched. -/
def updateComment (s : DB) (cid : Nat) (content : String) (now : Nat) :
    Except ApiError (DB × CommentResponse) :=
  match s.findComment cid with
  | none =>
    .error (.notFound ("Comment with ID " ++ toString cid ++ " not found"))
  | some c =>
    .ok ({ s with comments := s.comments.map (applyUpdate c content now) },
         commentResponseOf { c with content := content, updated_at := now })

/-- `PUT /comments/{comment_id}`: pydantic validation, then the handler. -/
def updateCommentEndpoint (s : DB) (cid : Nat) (content : String) (now : Nat) :
    Except ApiError (DB × CommentResponse) :=
  match validateCommentUpdate content with
  | none => .error .validationError
  | some c => updateComment s cid c now

/-- The ORM's default handling of the un-cascaded `Comment.replies`
relationship when comment `cid` is deleted: a row replying to `cid` has its
(nullable) `parent_comment_id` set to NULL; other rows are untouched. -/
def orphanReply (cid : Nat) (d : CommentRow) : CommentRow :=
  if d.parent_comment_id = some cid then { d with parent_comment_id := none }
  else d

/-- `DELETE /comments/{comment_id}` (`delete_comment`).  The
`Comment.replies` relationship carries no delete cascade, so the ORM's default
applies: rows whose `parent_comment_id` is the deleted id get that (nullable)
column set to NULL (`orphanReply`), and the deleted row is removed. -/
def deleteComment (s : DB) (cid : Nat) : Except ApiError (DB × String) :=
  match s.findComment cid with
  | none =>
    .error (.notFound ("Comment with ID " ++ toString cid ++ " not found"))
  | some c =>
    let remaining :=
      (s.comments.filter (fun d => d.id != c.id)).map (orphanReply c.id)
    .ok ({ s with comments := remaining },
         "Comment with ID " ++ toString cid ++ " deleted successfully")

/-- The observable shape of an unexpected-storage-failure response: whether
the handler's `except` branch called `db.rollback()`, and the HTTP status and
detail it raised. -/
structure FailureResponse where
  rolledBack : Bool
  statusCode : Nat
  detail : String
deriving Repr, DecidableEq

/-- `create_post`'s `except Exception` branch: rollback, then 500 with
`detail = f"Failed to create post: {str(e)}"`. -/
def createPostFailure (e : String) : FailureResponse :=
  ⟨true, 500, "Failed to create post: " ++ e⟩

/-- `update_comment`'s `except Exception` branch: rollback, then 500 with
`detail = f"Failed to update comment: {str(e)}"`. -/
def updateCommentFailure (e : String) : FailureResponse :=
  ⟨true, 500, "Failed to update comment: " ++ e⟩

/-- `get_posts`'s `except Exception` branch: no rollback call, 500 with
`detail = f"Failed to fetch posts: {str(e)}"`. -/
def getPostsFailure (e : String) : FailureResponse :=
  ⟨false, 500, "Failed to fetch posts: " ++ e⟩

/-- The state left behind by a handler call: the new store on success, the
original store when the handler raised (every error branch either made no
write or rolled the transaction back). -/
def afterOk {β : Type} (r : Except ApiError (DB × β)) (s : DB) : DB :=
  match r with
  | .ok (s2, _) => s2
  | .error _ => s

/-- Referential consistency of threaded comments: every stored comment whose
`parent_comment_id` is set references a stored comment with that id and with
the same `post_id`. -/
def ParentsConsistent (s : DB) : Prop :=
  ∀ c ∈ s.comments, ∀ q : Nat, c.parent_comment_id = some q →
    ∃ pc ∈ s.comments, pc.id = q ∧ pc.post_id = c.post_id

/-- One public mutating request, as a relation between the store before and
the store after (read-only endpoints do not change the store). -/
inductive Step : DB → DB → Prop where
  | createPost (s : DB) (title content author : String) (now : Nat) (s2 : DB)
      (h : s2 = afterOk (createPostEndpoint s title content author now) s) :
      Step s s2
  | deletePost (s : DB) (pid : Nat) (s2 : DB)
      (h : s2 = afterOk (deletePost s pid) s) : Step s s2
  | createComment (s : DB) (pid : Nat) (content author : String)
      (parent : Option Nat) (now : Nat) (s2 : DB)
      (h : s2 = afterOk (createCommentEndpoint s pid content author parent now) s) :
      Step s s2
  | updateComment (s : DB) (cid : Nat) (content : String) (now : Nat) (s2 : DB)
      (h : s2 = afterOk (updateCommentEndpoint s cid content now) s) : Step s s2
  | deleteComment (s : DB) (cid : Nat) (s2 : DB)
      (h : s2 = afterOk (deleteComment s cid) s) : Step s s2

/-- Stores reachable from the fresh database by public requests. -/
inductive Reachable : DB → Prop where
  | init : Reachable DB.empty
  | step {s s2 : DB} : Reachable s → Step s s2 → Reachable s2

/-- A store whose comments table is unchanged keeps parent consistency. -/
theorem parentsConsistent_of_comments_eq {s s2 : DB}
    (h : s2.comments = s.comments) (H : ParentsConsistent s) :
    ParentsConsistent s2 := by
  intro c hc q hq
  rw [h] at hc
  obtain ⟨pc, hpc, hid, hpost⟩ := H c hc q hq
  exact ⟨pc, by rw [h]; exact hpc, hid, hpost⟩

/-- `create_post` never touches the comments table. -/
theorem comments_afterOk_createPostEndpoint (s : DB) (t c a : String) (n : Nat) :
    (afterOk (createPostEndpoint s t c a n) s).comments = s.comments := by
  unfold createPostEndpoint afterOk createPost
  cases validatePostCreate t c a with
  | none => rfl
  | some v => rfl

/-- `delete_post` never changes the comments table: when the post has
comments the flush fails and everything is rolled back, otherwise only the
posts table shrinks. -/
theorem comments_afterOk_deletePost (s : DB) (pid : Nat) :
    (afterOk (deletePost s pid) s).comments = s.comments := by
  unfold deletePost afterOk
  cases s.findPost pid with
  | none => rfl
  | some p =>
    by_cases h : s.comments.any (fun c => c.post_id == p.id)
    · simp [h]
    · simp [h]

/-- Full inductive invariant of reachable stores: parent consistency plus
freshness and uniqueness of comment ids (every stored id is below the
autoincrement counter, and no two rows share an id). -/
def StoreInv (s : DB) : Prop :=
  ParentsConsistent s ∧ (∀ c ∈ s.comments, c.id < s.nextCommentId) ∧
    (s.comments.map (fun c => c.id)).Nodup

/-- A store with the same comments table and counter keeps the invariant. -/
theorem storeInv_of_comments_eq {s s2 : DB}
    (h : s2.comments = s.comments) (h2 : s2.nextCommentId = s.nextCommentId)
    (H : StoreInv s) : StoreInv s2 := by
  obtain ⟨H1, H2, H3⟩ := H
  refine ⟨parentsConsistent_of_comments_eq h H1, ?_, ?_⟩
  · intro c hc
    rw [h] at hc
    rw [h2]
    exact H2 c hc
  · rw [h]
    exact H3

/-- `create_post` never touches the comment id counter. -/
theorem nextCommentId_afterOk_createPostEndpoint
    (s : DB) (t c a : String) (n : Nat) :
    (afterOk (createPostEndpoint s t c a n) s).nextCommentId = s.nextCommentId := by
  unfold createPostEndpoint afterOk createPost
  cases validatePostCreate t c a with
  | none => rfl
  | some v => rfl

/-- `delete_post` never touches the comment id counter. -/
theorem nextCommentId_afterOk_deletePost (s : DB) (pid : Nat) :
    (afterOk (deletePost s pid) s).nextCommentId = s.nextCommentId := by
  unfold deletePost afterOk
  cases s.findPost pid with
  | none => rfl
  | some p =>
    by_cases h : s.comments.any (fun c => c.post_id == p.id)
    · simp [h]
    · simp [h]

/-- Inserting a comment whose parent reference (when present) is satisfied in
the current store preserves the invariant. -/
theorem storeInv_insertComment (s : DB) (pid : Nat) (c0 a0 : String)
    (parent : Option Nat) (now : Nat) (H : StoreInv s)
    (hpar : ∀ q, parent = some q →
      ∃ pc ∈ s.comments, pc.id = q ∧ pc.post_id = pid) :
    StoreInv (insertComment s pid c0 a0 parent now).1 := by
  obtain ⟨H1, H2, H3⟩ := H
  refine ⟨?_, ?_, ?_⟩
  · intro d hd r hr
    simp only [insertComment] at hd ⊢
    rcases List.mem_append.1 hd with h1 | h1
    · obtain ⟨pc, hpc, hid, hpost⟩ := H1 d h1 r hr
      exact ⟨pc, List.mem_append_left _ hpc, hid, hpost⟩
    · rw [List.mem_singleton] at h1
      subst h1
      obtain ⟨pc, hpc, hid, hpost⟩ := hpar r hr
      exact ⟨pc, List.mem_append_left _ hpc, hid, hpost⟩
  · intro d hd
    simp only [insertComment] at hd ⊢
    rcases List.mem_append.1 hd with h1 | h1
    · exact Nat.lt_succ_of_lt (H2 d h1)
    · rw [List.mem_singleton] at h1
      subst h1
      exact Nat.lt_succ_self _
  · simp only [insertComment, List.map_append, List.map_cons, List.map_nil]
    refine List.Nodup.append H3 (List.nodup_singleton _) ?_
    intro x hx hy
    rw [List.mem_singleton] at hy
    subst hy
    obtain ⟨d, hd, hdx⟩ := List.mem_map.1 hx
    have := H2 d hd
    omega

/-- Successful comment creation preserves the store invariant: the handler
only inserts after checking the parent reference against the store. -/
theorem storeInv_createComment_ok {s s2 : DB} {r : CommentResponse}
    {pid : Nat} {c0 a0 : String} {pr : Option Nat} {now : Nat}
    (h : createComment s pid c0 a0 pr now = .ok (s2, r)) (H : StoreInv s) :
    StoreInv s2 := by
  unfold createComment at h
  split at h
  · simp at h
  · split at h
    · rename_i q
      split at h
      · simp at h
      · rename_i pc hq
        split at h
        · simp at h
        · rename_i hne
          rw [Except.ok.injEq] at h
          have hs2 : (insertComment s pid c0 a0 (some q) now).1 = s2 :=
            congrArg Prod.fst h
          rw [← hs2]
          refine storeInv_insertComment s pid c0 a0 (some q) now H ?_
          intro r0 hr0
          rw [Option.some.injEq] at hr0
          subst hr0
          refine ⟨pc, List.mem_of_find?_eq_some hq, ?_, not_not.mp hne⟩
          have hbeq := List.find?_some hq
          exact eq_of_beq hbeq
    · rw [Except.ok.injEq] at h
      have hs2 : (insertComment s pid c0 a0 none now).1 = s2 :=
        congrArg Prod.fst h
      rw [← hs2]
      refine storeInv_insertComment s pid c0 a0 none now H ?_
      intro q hq
      cases hq

/-- Comment creation preserves the store invariant: every branch either
leaves the store unchanged or inserts a comment whose parent reference was
checked against the store. -/
theorem storeInv_afterOk_createCommentEndpoint
    (s : DB) (pid : Nat) (content author : String) (parent : Option Nat)
    (now : Nat) (H : StoreInv s) :
    StoreInv (afterOk (createCommentEndpoint s pid content author parent now) s) := by
  unfold createCommentEndpoint
  cases hv : validateCommentCreate content author parent with
  | none => exact H
  | some v =>
    obtain ⟨c0, a0, pr⟩ := v
    show StoreInv (afterOk (createComment s pid c0 a0 pr now) s)
    cases hr : createComment s pid c0 a0 pr now with
    | error e => exact H
    | ok p2 =>
      obtain ⟨s2, r⟩ := p2
      exact storeInv_createComment_ok hr H

/-- The in-place content update of one fetched row preserves the store
invariant (id uniqueness makes the updated row agree with the fetched one). -/
theorem storeInv_updateMap (s : DB) (c : CommentRow) (c0 : String) (now : Nat)
    (hcmem : c ∈ s.comments) (H : StoreInv s) :
    StoreInv { s with comments := s.comments.map (applyUpdate c c0 now) } := by
  obtain ⟨H1, H2, H3⟩ := H
  have uniq : ∀ x ∈ s.comments, ∀ y ∈ s.comments, x.id = y.id → x = y :=
    fun x hx y hy hxy => List.inj_on_of_nodup_map H3 hx hy hxy
  have hgid : ∀ d : CommentRow, (applyUpdate c c0 now d).id = d.id := by
    intro d
    unfold applyUpdate
    by_cases h : d.id = c.id
    · rw [if_pos h]
      exact h.symm
    · rw [if_neg h]
  have hgpost : ∀ d ∈ s.comments,
      (applyUpdate c c0 now d).post_id = d.post_id := by
    intro d hd
    unfold applyUpdate
    by_cases h : d.id = c.id
    · rw [if_pos h, uniq d hd c hcmem h]
    · rw [if_neg h]
  have hgparent : ∀ d ∈ s.comments,
      (applyUpdate c c0 now d).parent_comment_id = d.parent_comment_id := by
    intro d hd
    unfold applyUpdate
    by_cases h : d.id = c.id
    · rw [if_pos h, uniq d hd c hcmem h]
    · rw [if_neg h]
  refine ⟨?_, ?_, ?_⟩
  · intro d hd r hr
    obtain ⟨d0, hd0, hgd⟩ := List.mem_map.1 hd
    subst hgd
    rw [hgparent d0 hd0] at hr
    obtain ⟨pc, hpc, hid, hpost⟩ := H1 d0 hd0 r hr
    refine ⟨applyUpdate c c0 now pc, List.mem_map_of_mem _ hpc, ?_, ?_⟩
    · rw [hgid pc]
      exact hid
    · rw [hgpost pc hpc, hgpost d0 hd0]
      exact hpost
  · intro d hd
    obtain ⟨d0, hd0, hgd⟩ := List.mem_map.1 hd
    subst hgd
    show (applyUpdate c c0 now d0).id < s.nextCommentId
    rw [hgid d0]
    exact H2 d0 hd0
  · show ((s.comments.map (applyUpdate c c0 now)).map (fun x => x.id)).Nodup
    rw [List.map_map]
    have hmap : s.comments.map ((fun x : CommentRow => x.id) ∘ applyUpdate c c0 now)
        = s.comments.map (fun x => x.id) :=
      List.map_congr_left (fun d _ => hgid d)
    rw [hmap]
    exact H3

/-- `update_comment` preserves the store invariant. -/
theorem storeInv_afterOk_updateCommentEndpoint
    (s : DB) (cid : Nat) (content : String) (now : Nat) (H : StoreInv s) :
    StoreInv (afterOk (updateCommentEndpoint s cid content now) s) := by
  unfold updateCommentEndpoint
  cases hv : validateCommentUpdate content with
  | none => exact H
  | some c0 =>
    unfold updateComment
    cases hc : s.findComment cid with
    | none => exact H
    | some c => exact storeInv_updateMap s c c0 now (List.mem_of_find?_eq_some hc) H

/-- `orphanReply` never changes a row's id. -/
theorem orphanReply_id (cid : Nat) (d : CommentRow) :
    (orphanReply cid d).id = d.id := by
  unfold orphanReply
  by_cases h : d.parent_comment_id = some cid
  · rw [if_pos h]
  · rw [if_neg h]

/-- `orphanReply` never changes a row's post. -/
theorem orphanReply_post_id (cid : Nat) (d : CommentRow) :
    (orphanReply cid d).post_id = d.post_id := by
  unfold orphanReply
  by_cases h : d.parent_comment_id = some cid
  · rw [if_pos h]
  · rw [if_neg h]

/-- `delete_comment` preserves the store invariant: the deleted row is
removed and its direct replies become top-level, so no reference dangles. -/
theorem storeInv_afterOk_deleteComment (s : DB) (cid : Nat) (H : StoreInv s) :
    StoreInv (afterOk (deleteComment s cid) s) := by
  obtain ⟨H1, H2, H3⟩ := H
  unfold deleteComment
  cases hc : s.findComment cid with
  | none => exact ⟨H1, H2, H3⟩
  | some c =>
    refine ⟨?_, ?_, ?_⟩
    · intro d hd r hr
      obtain ⟨d0, hd0, hgd⟩ := List.mem_map.1 hd
      obtain ⟨hd0mem, hd0ne⟩ := List.mem_filter.1 hd0
      subst hgd
      by_cases hpar : d0.parent_comment_id = some c.id
      · unfold orphanReply at hr
        rw [if_pos hpar] at hr
        cases hr
      · unfold orphanReply at hr
        rw [if_neg hpar] at hr
        obtain ⟨pc, hpc, hid, hpost⟩ := H1 d0 hd0mem r hr
        have hpcne : pc.id ≠ c.id := by
          intro he
          apply hpar
          rw [← hid, he] at hr
          exact hr
        refine ⟨orphanReply c.id pc, ?_, ?_, ?_⟩
        · refine List.mem_map_of_mem _ (List.mem_filter.2 ⟨hpc, ?_⟩)
          exact bne_iff_ne.mpr hpcne
        · rw [orphanReply_id]
          exact hid
        · rw [orphanReply_post_id, orphanReply_post_id]
          exact hpost
    · intro d hd
      obtain ⟨d0, hd0, hgd⟩ := List.mem_map.1 hd
      obtain ⟨hd0mem, _⟩ := List.mem_filter.1 hd0
      subst hgd
      show (orphanReply c.id d0).id < s.nextCommentId
      rw [orphanReply_id]
      exact H2 d0 hd0mem
    · show (((s.comments.filter (fun d => d.id != c.id)).map
          (orphanReply c.id)).map (fun x => x.id)).Nodup
      rw [List.map_map]
      have hmap : (s.comments.filter (fun d => d.id != c.id)).map
            ((fun x : CommentRow => x.id) ∘ orphanReply c.id)
          = (s.comments.filter (fun d => d.id != c.id)).map (fun x => x.id) :=
        List.map_congr_left (fun d _ => orphanReply_id c.id d)
      rw [hmap]
      exact H3.sublist (List.Sublist.map _ (List.filter_sublist _))

/-- Every public mutating request preserves the store invariant. -/
theorem storeInv_step {s s2 : DB} (h : Step s s2) (H : StoreInv s) :
    StoreInv s2 := by
  cases h with
  | createPost t c a n s2 h =>
    subst h
    exact storeInv_of_comments_eq (comments_afterOk_createPostEndpoint s t c a n)
      (nextCommentId_afterOk_createPostEndpoint s t c a n) H
  | deletePost pid s2 h =>
    subst h
    exact storeInv_of_comments_eq (comments_afterOk_deletePost s pid)
      (nextCommentId_afterOk_deletePost s pid) H
  | createComment pid content author parent now s2 h =>
    subst h
    exact storeInv_afterOk_createCommentEndpoint s pid content author parent now H
  | updateComment cid content now s2 h =>
    subst h
    exact storeInv_afterOk_updateCommentEndpoint s cid content now H
  | deleteComment cid s2 h =>
    subst h
    exact storeInv_afterOk_deleteComment s cid H

/-- The store invariant holds in every reachable store. -/
theorem storeInv_reachable {s : DB} (h : Reachable s) : StoreInv s := by
  induction h with
  | init =>
    refine ⟨?_, ?_, List.nodup_nil⟩
    · intro c hc
      exact absurd hc (List.not_mem_nil c)
    · intro c hc
      exact absurd hc (List.not_mem_nil c)
  | step hr hstep ih => exact storeInv_step hstep ih

/-- Whether a handler outcome is a success response. -/
def exceptOk {α : Type} : Except ApiError α → Bool
  | .ok _ => true
  | .error _ => false

/-- Characterization of the shared pydantic validator: it succeeds exactly on
strings that are non-empty after stripping, returning the stripped string. -/
theorem nonEmptyTrimmed_eq (v : String) :
    nonEmptyTrimmed v =
      if pyStrip v = "" then none else some (pyStrip v) := by
  unfold nonEmptyTrimmed
  by_cases h : pyStrip v = ""
  · rw [if_pos h]
    by_cases h0 : v = ""
    · simp [h0, h]
    · simp [h0, h]
  · have h0 : ¬ v = "" := by
      intro he
      apply h
      rw [he]
      decide
    simp [h0, h]

/-- A concrete store history: a post is created... -/
def demoS1 : DB :=
  afterOk (createPostEndpoint DB.empty "Hello" "World" "alice" 1) DB.empty

/-- ...then a top-level comment on it... -/
def demoS2 : DB :=
  afterOk (createCommentEndpoint demoS1 1 "hi there" "bob" none 2) demoS1

/-- ...then a reply to that comment... -/
def demoS3 : DB :=
  afterOk (createCommentEndpoint demoS2 1 "a reply" "eve" (some 1) 3) demoS2

/-- ...and finally the top-level comment is deleted. -/
def demoS4 : DB :=
  afterOk (deleteComment demoS3 1) demoS3

/-- C5: in every store reachable by the public create/update/delete
operations on posts and comments, every stored comment whose
`parent_comment_id` is set references an existing comment with the same
`post_id` — in particular no delete leaves a dangling parent reference. -/
theorem C5_parent_references_consistent {s : DB} (h : Reachable s) :
    ParentsConsistent s :=
  (storeInv_reachable h).1

/-- Witness for C5 at a concrete four-request history ending in a comment
deletion that orphans a reply. -/
theorem C5_parent_references_consistent_witness : ParentsConsistent demoS4 :=
  C5_parent_references_consistent
    (Reachable.step
      (Reachable.step
        (Reachable.step
          (Reachable.step Reachable.init
            (Step.createPost DB.empty "Hello" "World" "alice" 1 demoS1 rfl))
          (Step.createComment demoS1 1 "hi there" "bob" none 2 demoS2 rfl))
        (Step.createComment demoS2 1 "a reply" "eve" (some 1) 3 demoS3 rfl))
      (Step.deleteComment demoS3 1 demoS4 rfl))

deriving instance DecidableEq for Except

/-- C1 (evaluation at the failing input): post 1 exists and has two stored
comments (one a nested reply), yet `DELETE /posts/1` does not succeed with a
confirmation: no delete cascade is configured on the `posts.id` foreign key,
so the ORM's nullify of the non-nullable `comments.post_id` column makes the
flush fail; the handler rolls back (store unchanged) and returns a 500, and
the comments are still retrievable afterwards. -/
theorem C1_delete_post_with_comments_fails :
    (demoS3.findPost 1).isSome = true ∧
    (demoS3.commentsOf 1).length = 2 ∧
    deletePost demoS3 1 = .error (.persistenceFailure
      "Failed to delete post: NOT NULL constraint failed: comments.post_id") ∧
    (ApiError.persistenceFailure
      "Failed to delete post: NOT NULL constraint failed: comments.post_id").status
      = 500 ∧
    afterOk (deletePost demoS3 1) demoS3 = demoS3 ∧
    exceptOk (getComment demoS3 1) = true ∧
    exceptOk (getComment demoS3 2) = true := by
  decide

/-- C2 counterexample: a whitespace-only author passes post-creation
validation — creation succeeds and the post is stored with the blank author —
contradicting the claim that an empty-after-trim author is rejected with a
validation error and nothing stored. -/
theorem C2_counterexample_blank_author_accepted :
    exceptOk (createPostEndpoint DB.empty "Title" "Content" "   " 1) = true ∧
    (afterOk (createPostEndpoint DB.empty "Title" "Content" "   " 1) DB.empty).posts
      = [⟨1, "Title", "Content", some "   ", 1, 1⟩] := by
  decide

/-- C2 (amended): post creation succeeds iff title and content are non-empty
after stripping (and they are stored stripped); the author field is not
validated — any author string, blank included, is accepted and stored as
given.  A payload whose title or content is empty after stripping is rejected
with a validation error and the store is unchanged. -/
theorem C2_title_content_validated_author_not
    (s : DB) (title content author : String) (now : Nat) :
    (exceptOk (createPostEndpoint s title content author now) = true ↔
      (pyStrip title ≠ "" ∧ pyStrip content ≠ "")) ∧
    (pyStrip title = "" ∨ pyStrip content = "" →
      createPostEndpoint s title content author now = .error .validationError ∧
      afterOk (createPostEndpoint s title content author now) s = s) ∧
    (pyStrip title ≠ "" → pyStrip content ≠ "" →
      createPostEndpoint s title content author now =
        .ok ({ s with
                posts := s.posts ++
                  [⟨s.nextPostId, pyStrip title, pyStrip content, some author,
                    now, now⟩],
                nextPostId := s.nextPostId + 1 },
             ⟨s.nextPostId, pyStrip title, pyStrip content, some author, now, now,
              (s.comments.filter (fun c => c.post_id == s.nextPostId)).length⟩)) := by
  unfold createPostEndpoint validatePostCreate
  rw [nonEmptyTrimmed_eq, nonEmptyTrimmed_eq]
  by_cases ht : pyStrip title = ""
  · rw [if_pos ht]
    refine ⟨?_, ?_, ?_⟩
    · simp [exceptOk, ht]
    · intro _
      exact ⟨rfl, rfl⟩
    · intro h1 _
      exact absurd ht h1
  · rw [if_neg ht]
    by_cases hc : pyStrip content = ""
    · rw [if_pos hc]
      refine ⟨?_, ?_, ?_⟩
      · simp [exceptOk, hc]
      · intro _
        exact ⟨rfl, rfl⟩
      · intro _ h2
        exact absurd hc h2
    · rw [if_neg hc]
      refine ⟨?_, ?_, ?_⟩
      · simp [exceptOk, ht, hc]
      · intro h
        rcases h with h | h
        · exact absurd h ht
        · exact absurd h hc
      · intro _ _
        rfl

/-- Witness for C2 (amended) at a concrete rejected payload. -/
theorem C2_title_content_validated_author_not_witness :
    createPostEndpoint DB.empty "  " "Content" "bob" 7 = .error .validationError ∧
    afterOk (createPostEndpoint DB.empty "  " "Content" "bob" 7) DB.empty
      = DB.empty :=
  (C2_title_content_validated_author_not DB.empty "  " "Content" "bob" 7).2.1
    (Or.inl (by decide))

/-- C3 counterexample: the 500 detail is not a generic message — it embeds
the raw exception text verbatim, so two different internal exceptions produce
two observably different response bodies. -/
theorem C3_counterexample_detail_embeds_exception :
    (createPostFailure "boom").detail = "Failed to create post: " ++ "boom" ∧
    (createPostFailure "boom").detail ≠ (createPostFailure "").detail := by
  decide

/-- C3 (amended): on an unexpected storage failure the mutating handlers
(`create_post`, `update_comment` shown; delete/create-comment are identical
in the source) roll back the open transaction and return 500, and the
read-only `get_posts` returns 500 without an explicit rollback; in every case
the human-readable detail embeds the raw exception text `str(e)` after a
fixed operation-specific prefix. -/
theorem C3_failure_rollback_and_detail (e : String) :
    createPostFailure e = ⟨true, 500, "Failed to create post: " ++ e⟩ ∧
    updateCommentFailure e = ⟨true, 500, "Failed to update comment: " ++ e⟩ ∧
    getPostsFailure e = ⟨false, 500, "Failed to fetch posts: " ++ e⟩ :=
  ⟨rfl, rfl, rfl⟩

/-- C4: comment creation's check order and success effect: 404 `notFound`
when the post is missing; with a parent reference, 404 `notFound` when the
parent comment is missing and 400 `invalidParent` when it belongs to a
different post; only otherwise is the comment stored (both timestamps set to
the current time) and returned (the route's fixed success status is 201). -/
theorem C4_create_comment_checks
    (s : DB) (pid : Nat) (content author : String) (parent : Option Nat)
    (now : Nat) :
    (s.findPost pid = none →
      createComment s pid content author parent now =
        .error (.notFound ("Post with ID " ++ toString pid ++ " not found")) ∧
      (ApiError.notFound ("Post with ID " ++ toString pid ++ " not found")).status
        = 404) ∧
    (∀ p q, s.findPost pid = some p → parent = some q →
      s.findComment q = none →
      createComment s pid content author parent now =
        .error (.notFound ("Parent comment with ID " ++ toString q ++ " not found"))) ∧
    (∀ p q pc, s.findPost pid = some p → parent = some q →
      s.findComment q = some pc → pc.post_id ≠ pid →
      createComment s pid content author parent now = .error .invalidParent ∧
      ApiError.invalidParent.status = 400) ∧
    (∀ p, s.findPost pid = some p →
      (parent = none ∨ ∃ q pc, parent = some q ∧ s.findComment q = some pc ∧
        pc.post_id = pid) →
      createComment s pid content author parent now =
        .ok ({ s with
                comments := s.comments ++
                  [⟨s.nextCommentId, content, some author, pid, parent, now, now⟩],
                nextCommentId := s.nextCommentId + 1 },
             ⟨s.nextCommentId, content, some author, pid, parent, now, now⟩)) := by
  refine ⟨?_, ?_, ?_, ?_⟩
  · intro h
    refine ⟨?_, rfl⟩
    simp [createComment, h]
  · intro p q hp hq hqc
    subst hq
    simp [createComment, hp, hqc]
  · intro p q pc hp hq hqc hne
    subst hq
    refine ⟨?_, rfl⟩
    simp [createComment, hp, hqc, hne]
  · intro p hp hor
    rcases hor with h | ⟨q, pc, hq, hqc, hpost⟩
    · subst h
      simp [createComment, hp, insertComment, commentResponseOf]
    · subst hq
      simp [createComment, hp, hqc, hpost, insertComment, commentResponseOf]

/-- Witness for C4 at a concrete success: a top-level comment on an existing
post is stored with both timestamps set to the request time. -/
theorem C4_create_comment_checks_witness :
    createComment demoS1 1 "hi" "bob" none 5 =
      .ok ({ demoS1 with
              comments := demoS1.comments ++ [⟨1, "hi", some "bob", 1, none, 5, 5⟩],
              nextCommentId := 2 },
           ⟨1, "hi", some "bob", 1, none, 5, 5⟩) :=
  (C4_create_comment_checks demoS1 1 "hi" "bob" none 5).2.2.2
    ⟨1, "Hello", "World", some "alice", 1, 1⟩ (by decide) (Or.inl rfl)

/-- C6: updating an existing comment stores the stripped content and stamps
`updated_at` with the (monotone) current time, leaving id, author, post,
parent and `created_at` untouched and every other row unchanged; a payload
whose content is empty after stripping is rejected by validation and the
store — in particular the original content — is unchanged. -/
theorem C6_update_comment_frame
    (s : DB) (cid : Nat) (content : String) (now : Nat) (c : CommentRow)
    (hc : s.findComment cid = some c) (hclock : c.updated_at ≤ now) :
    (pyStrip content ≠ "" →
      updateCommentEndpoint s cid content now =
        .ok ({ s with
                comments := s.comments.map (applyUpdate c (pyStrip content) now) },
             ⟨c.id, pyStrip content, c.author, c.post_id, c.parent_comment_id,
              c.created_at, now⟩) ∧
      c.updated_at ≤ now ∧
      (∀ d ∈ s.comments, d.id ≠ c.id → applyUpdate c (pyStrip content) now d = d) ∧
      applyUpdate c (pyStrip content) now c =
        { c with content := pyStrip content, updated_at := now }) ∧
    (pyStrip content = "" →
      updateCommentEndpoint s cid content now = .error .validationError ∧
      afterOk (updateCommentEndpoint s cid content now) s = s) := by
  constructor
  · intro hne
    refine ⟨?_, hclock, ?_, ?_⟩
    · simp [updateCommentEndpoint, validateCommentUpdate, nonEmptyTrimmed_eq,
        hne, updateComment, hc, commentResponseOf]
    · intro d _ hdne
      unfold applyUpdate
      rw [if_neg hdne]
    · unfold applyUpdate
      rw [if_pos rfl]
  · intro he
    constructor
    · simp [updateCommentEndpoint, validateCommentUpdate, nonEmptyTrimmed_eq, he]
    · simp [updateCommentEndpoint, validateCommentUpdate, nonEmptyTrimmed_eq, he,
        afterOk]

/-- Witness for C6 at a concrete update of the stored comment. -/
theorem C6_update_comment_frame_witness :
    updateCommentEndpoint demoS2 1 "  updated  " 5 =
      .ok ({ demoS2 with
              comments := demoS2.comments.map
                (applyUpdate ⟨1, "hi there", some "bob", 1, none, 2, 2⟩ "updated" 5) },
           ⟨1, "updated", some "bob", 1, none, 2, 5⟩) :=
  ((C6_update_comment_frame demoS2 1 "  updated  " 5
      ⟨1, "hi there", some "bob", 1, none, 2, 2⟩ (by decide) (by decide)).1
    (by decide)).1

/-- The ceiling quotient `(t + l - 1) / l` covers `t`. -/
theorem total_le_totalPages_mul (t l : Nat) (hl : 0 < l) :
    t ≤ ((t + l - 1) / l) * l := by
  have h : t ≤ l • (t ⌈/⌉ l) := le_smul_ceilDiv hl
  rw [smul_eq_mul, Nat.ceilDiv_eq_add_pred_div, Nat.mul_comm] at h
  exact h

/-- With pagination inputs in range, `get_posts` succeeds with the window of
the descending-sorted posts and the computed totals. -/
theorem getPosts_ok (s : DB) (page limit : Int)
    (hpage : 1 ≤ page) (hlimit : 1 ≤ limit) (hlimit2 : limit ≤ 100) :
    getPosts s page limit =
      .ok ⟨(((postsDescByCreated s).drop ((page.toNat - 1) * limit.toNat)).take
              limit.toNat).map (postResponseOf s),
           s.posts.length, page.toNat, limit.toNat,
           (s.posts.length + limit.toNat - 1) / limit.toNat⟩ := by
  unfold getPosts
  split
  · rename_i h
    exact absurd h (by omega)
  · split
    · rename_i h
      rw [Bool.or_eq_true, decide_eq_true_eq, decide_eq_true_eq] at h
      exact absurd h (by omega)
    · rfl

/-- With pagination inputs in range and the post present, `get_comments`
succeeds with the window of that post's ascending-sorted comments. -/
theorem getComments_ok (s : DB) (pid : Nat) (page limit : Int) (p : PostRow)
    (hp : s.findPost pid = some p)
    (hpage : 1 ≤ page) (hlimit : 1 ≤ limit) (hlimit2 : limit ≤ 100) :
    getComments s pid page limit =
      .ok ⟨(((commentsAscByCreated s pid).drop ((page.toNat - 1) * limit.toNat)).take
              limit.toNat).map commentResponseOf,
           (s.commentsOf pid).length, page.toNat, limit.toNat,
           ((s.commentsOf pid).length + limit.toNat - 1) / limit.toNat⟩ := by
  unfold getComments
  split
  · rename_i h
    exact absurd h (by omega)
  · split
    · rename_i h
      rw [Bool.or_eq_true, decide_eq_true_eq, decide_eq_true_eq] at h
      exact absurd h (by omega)
    · rw [hp]

/-- With pagination inputs in range and the post absent, `get_comments`
fails with 404. -/
theorem getComments_notFound (s : DB) (pid : Nat) (page limit : Int)
    (hp : s.findPost pid = none)
    (hpage : 1 ≤ page) (hlimit : 1 ≤ limit) (hlimit2 : limit ≤ 100) :
    getComments s pid page limit =
      .error (.notFound ("Post with ID " ++ toString pid ++ " not found")) := by
  unfold getComments
  split
  · rename_i h
    exact absurd h (by omega)
  · split
    · rename_i h
      rw [Bool.or_eq_true, decide_eq_true_eq, decide_eq_true_eq] at h
      exact absurd h (by omega)
    · rw [hp]

/-- C7: for valid pagination inputs both list endpoints report
`total_pages = ceil(total / limit)` where total counts all matching rows, and
a request whose page exceeds total_pages succeeds with an empty item list
rather than failing. -/
theorem C7_total_pages_ceiling_and_empty_beyond
    (s : DB) (pid : Nat) (page limit : Int)
    (hpage : 1 ≤ page) (hlimit : 1 ≤ limit) (hlimit2 : limit ≤ 100) :
    (∃ r, getPosts s page limit = .ok r ∧
      r.total = s.posts.length ∧
      r.total_pages = r.total ⌈/⌉ limit.toNat ∧
      ((r.total_pages : Int) < page → r.posts = [])) ∧
    (∀ p, s.findPost pid = some p →
      ∃ r, getComments s pid page limit = .ok r ∧
        r.total = (s.commentsOf pid).length ∧
        r.total_pages = r.total ⌈/⌉ limit.toNat ∧
        ((r.total_pages : Int) < page → r.comments = [])) := by
  have hl0 : 0 < limit.toNat := by omega
  constructor
  · refine ⟨_, getPosts_ok s page limit hpage hlimit hlimit2, rfl, rfl, ?_⟩
    intro hb
    have hb2 : (((s.posts.length + limit.toNat - 1) / limit.toNat : Nat) : Int)
        < page := hb
    have hmul := total_le_totalPages_mul s.posts.length limit.toNat hl0
    have h4 : (s.posts.length + limit.toNat - 1) / limit.toNat ≤ page.toNat - 1 := by
      omega
    have hoff : s.posts.length ≤ (page.toNat - 1) * limit.toNat :=
      le_trans hmul (Nat.mul_le_mul_right _ h4)
    have hlen : (postsDescByCreated s).length = s.posts.length :=
      (List.perm_insertionSort _ _).length_eq
    show (((postsDescByCreated s).drop ((page.toNat - 1) * limit.toNat)).take
        limit.toNat).map (postResponseOf s) = []
    rw [List.drop_eq_nil_of_le (by rw [hlen]; exact hoff)]
    simp
  · intro p hp
    refine ⟨_, getComments_ok s pid page limit p hp hpage hlimit hlimit2, rfl,
      rfl, ?_⟩
    intro hb
    have hb2 : ((((s.commentsOf pid).length + limit.toNat - 1) / limit.toNat : Nat)
        : Int) < page := hb
    have hmul := total_le_totalPages_mul (s.commentsOf pid).length limit.toNat hl0
    have h4 : ((s.commentsOf pid).length + limit.toNat - 1) / limit.toNat ≤
        page.toNat - 1 := by omega
    have hoff : (s.commentsOf pid).length ≤ (page.toNat - 1) * limit.toNat :=
      le_trans hmul (Nat.mul_le_mul_right _ h4)
    have hlen : (commentsAscByCreated s pid).length = (s.commentsOf pid).length :=
      (List.perm_insertionSort _ _).length_eq
    show (((commentsAscByCreated s pid).drop ((page.toNat - 1) * limit.toNat)).take
        limit.toNat).map commentResponseOf = []
    rw [List.drop_eq_nil_of_le (by rw [hlen]; exact hoff)]
    simp

/-- Witness for C7: a store with one post and two comments, requested at
page 5 with limit 1 — far beyond `total_pages`. -/
theorem C7_total_pages_ceiling_and_empty_beyond_witness :
    ∃ r, getPosts demoS3 5 1 = .ok r ∧
      r.total = demoS3.posts.length ∧
      r.total_pages = r.total ⌈/⌉ (1 : Int).toNat ∧
      ((r.total_pages : Int) < 5 → r.posts = []) :=
  (C7_total_pages_ceiling_and_empty_beyond demoS3 1 5 1 (by decide) (by decide)
    (by decide)).1

/-- The descending order on posts used by `get_posts` is total. -/
instance instPostDescTotal :
    IsTotal PostRow (fun a b => b.created_at ≤ a.created_at) :=
  ⟨fun a b => Nat.le_total b.created_at a.created_at⟩

/-- The descending order on posts used by `get_posts` is transitive. -/
instance instPostDescTrans :
    IsTrans PostRow (fun a b => b.created_at ≤ a.created_at) :=
  ⟨fun _ _ _ hab hbc => Nat.le_trans hbc hab⟩

/-- The ascending order on comments used by `get_comments` is total. -/
instance instCommentAscTotal :
    IsTotal CommentRow (fun a b => a.created_at ≤ b.created_at) :=
  ⟨fun a b => Nat.le_total a.created_at b.created_at⟩

/-- The ascending order on comments used by `get_comments` is transitive. -/
instance instCommentAscTrans :
    IsTrans CommentRow (fun a b => a.created_at ≤ b.created_at) :=
  ⟨fun _ _ _ hab hbc => Nat.le_trans hab hbc⟩

/-- C8: `get_posts` returns the `(page−1)×limit` offset window of the posts
arranged by `created_at` descending (newest first), while `get_comments`
returns the same offset window of the post's comments arranged by
`created_at` ascending (oldest first). -/
theorem C8_list_ordering_and_offset
    (s : DB) (pid : Nat) (page limit : Int)
    (hpage : 1 ≤ page) (hlimit : 1 ≤ limit) (hlimit2 : limit ≤ 100) :
    (∃ r, getPosts s page limit = .ok r ∧
      r.posts = (((postsDescByCreated s).drop ((page.toNat - 1) * limit.toNat)).take
        limit.toNat).map (postResponseOf s) ∧
      (postsDescByCreated s).Perm s.posts ∧
      r.posts.Pairwise (fun a b => b.created_at ≤ a.created_at)) ∧
    (∀ p, s.findPost pid = some p →
      ∃ r, getComments s pid page limit = .ok r ∧
        r.comments = (((commentsAscByCreated s pid).drop
          ((page.toNat - 1) * limit.toNat)).take limit.toNat).map commentResponseOf ∧
        (commentsAscByCreated s pid).Perm (s.commentsOf pid) ∧
        r.comments.Pairwise (fun a b => a.created_at ≤ b.created_at)) := by
  constructor
  · refine ⟨_, getPosts_ok s page limit hpage hlimit hlimit2, rfl,
      List.perm_insertionSort _ _, ?_⟩
    have hsorted : (postsDescByCreated s).Pairwise
        (fun a b => b.created_at ≤ a.created_at) :=
      List.sorted_insertionSort _ _
    have hitems : (((postsDescByCreated s).drop ((page.toNat - 1) * limit.toNat)).take
          limit.toNat).Pairwise (fun a b => b.created_at ≤ a.created_at) :=
      List.Pairwise.sublist
        ((List.take_sublist _ _).trans (List.drop_sublist _ _)) hsorted
    exact List.pairwise_map.mpr (hitems.imp (fun h => h))
  · intro p hp
    refine ⟨_, getComments_ok s pid page limit p hp hpage hlimit hlimit2, rfl,
      List.perm_insertionSort _ _, ?_⟩
    have hsorted : (commentsAscByCreated s pid).Pairwise
        (fun a b => a.created_at ≤ b.created_at) :=
      List.sorted_insertionSort _ _
    have hitems : (((commentsAscByCreated s pid).drop
          ((page.toNat - 1) * limit.toNat)).take limit.toNat).Pairwise
        (fun a b => a.created_at ≤ b.created_at) :=
      List.Pairwise.sublist
        ((List.take_sublist _ _).trans (List.drop_sublist _ _)) hsorted
    exact List.pairwise_map.mpr (hitems.imp (fun h => h))

/-- Witness for C8 at the concrete store with one post and two comments. -/
theorem C8_list_ordering_and_offset_witness :
    ∃ r, getPosts demoS3 1 10 = .ok r ∧
      r.posts = (((postsDescByCreated demoS3).drop
        (((1 : Int).toNat - 1) * (10 : Int).toNat)).take (10 : Int).toNat).map
        (postResponseOf demoS3) ∧
      (postsDescByCreated demoS3).Perm demoS3.posts ∧
      r.posts.Pairwise (fun a b => b.created_at ≤ a.created_at) :=
  (C8_list_ordering_and_offset demoS3 1 1 10 (by decide) (by decide)
    (by decide)).1

/-- C9: both list endpoints fail with `invalidPagination` (status 400)
exactly when page < 1 or limit is outside [1,100]; the iff holds for every
store and post id — in particular pagination is rejected even when the post
does not exist, because the check runs before the existence check. -/
theorem C9_invalid_pagination_iff (s : DB) (pid : Nat) (page limit : Int) :
    ((∃ d, getPosts s page limit = .error (.invalidPagination d)) ↔
      (page < 1 ∨ limit < 1 ∨ 100 < limit)) ∧
    ((∃ d, getComments s pid page limit = .error (.invalidPagination d)) ↔
      (page < 1 ∨ limit < 1 ∨ 100 < limit)) ∧
    (∀ d, (ApiError.invalidPagination d).status = 400) := by
  refine ⟨⟨?_, ?_⟩, ⟨?_, ?_⟩, fun d => rfl⟩
  · rintro ⟨d, hd⟩
    by_contra hcon
    push_neg at hcon
    rw [getPosts_ok s page limit (by omega) (by omega) (by omega)] at hd
    cases hd
  · intro h
    by_cases hpg : page < 1
    · refine ⟨"Page must be >= 1", ?_⟩
      unfold getPosts
      rw [if_pos hpg]
    · refine ⟨"Limit must be between 1 and 100", ?_⟩
      unfold getPosts
      rw [if_neg hpg, if_pos ?_]
      rw [Bool.or_eq_true, decide_eq_true_eq, decide_eq_true_eq]
      omega
  · rintro ⟨d, hd⟩
    by_contra hcon
    push_neg at hcon
    cases hp : s.findPost pid with
    | none =>
      rw [getComments_notFound s pid page limit hp (by omega) (by omega)
        (by omega)] at hd
      cases hd
    | some p =>
      rw [getComments_ok s pid page limit p hp (by omega) (by omega)
        (by omega)] at hd
      cases hd
  · intro h
    by_cases hpg : page < 1
    · refine ⟨"Page must be >= 1", ?_⟩
      unfold getComments
      rw [if_pos hpg]
    · refine ⟨"Limit must be between 1 and 100", ?_⟩
      unfold getComments
      rw [if_neg hpg, if_pos ?_]
      rw [Bool.or_eq_true, decide_eq_true_eq, decide_eq_true_eq]
      omega

/-- C10: the reported comments_count of a post is computed from the
`Post.comments` relationship, i.e. it counts every stored comment whose
`post_id` is the post's id; splitting that count into top-level comments and
replies (`parent_comment_id` set) shows nested replies are included. -/
theorem C10_comments_count_includes_replies
    (s : DB) (pid : Nat) (p : PostRow) (hp : s.findPost pid = some p) :
    getPost s pid = .ok (postResponseOf s p) ∧
    (postResponseOf s p).comments_count =
      (s.comments.filter (fun c => c.post_id == p.id)).length ∧
    (postResponseOf s p).comments_count =
      ((s.commentsOf p.id).filter (fun c => c.parent_comment_id == none)).length +
      ((s.commentsOf p.id).filter
        (fun c => ! (c.parent_comment_id == none))).length := by
  refine ⟨?_, rfl, ?_⟩
  · unfold getPost
    rw [hp]
  · exact List.length_eq_length_filter_add (fun c : CommentRow => c.parent_comment_id == none)

/-- Witness for C10 at the concrete store whose post has one top-level
comment and one nested reply. -/
theorem C10_comments_count_includes_replies_witness :
    getPost demoS3 1 =
      .ok (postResponseOf demoS3 ⟨1, "Hello", "World", some "alice", 1, 1⟩) ∧
    (postResponseOf demoS3 ⟨1, "Hello", "World", some "alice", 1, 1⟩).comments_count =
      (demoS3.comments.filter (fun c => c.post_id == 1)).length ∧
    (postResponseOf demoS3 ⟨1, "Hello", "World", some "alice", 1, 1⟩).comments_count =
      ((demoS3.commentsOf 1).filter (fun c => c.parent_comment_id == none)).length +
      ((demoS3.commentsOf 1).filter
        (fun c => ! (c.parent_comment_id == none))).length :=
  C10_comments_count_includes_replies demoS3 1
    ⟨1, "Hello", "World", some "alice", 1, 1⟩ (by decide)
